import Mathlib

/-!
Verification of the dgutil library (Discord bot lifecycle helper).

The development shallowly embeds the `Bot`-based implementation:
`Bot.init` / `Bot.Session` (one-time session initialization from the
`DISCORD_TOKEN` environment variable), `Bot.Run` (install handlers, open
the connection, serialize guild-join registrations into a ledger, and on
cancellation drain the ledger and close), and the exported `AddHandler`
wrapper (panic containment).  External collaborators (environment lookup,
`discordgo.New`, `Open`, the remote command create/delete calls, event
delivery) are parameters of the model; the control flow, error handling
and bookkeeping are translated from the source.
-/

namespace DGUtil

/-- The fields of `discordgo.ApplicationCommand` that the library reads:
the remote identifier, the command name and the originating guild id.
Desired commands supplied by the embedder carry a name; registrations
returned by the remote create call carry all three. -/
structure ApplicationCommand where
  id : String
  name : String
  guildID : String
deriving Repr, DecidableEq

/-- The fields of a `discordgo.GuildCreate` event that the reactor reads. -/
structure GuildCreate where
  id : String
  name : String
deriving Repr, DecidableEq

/-- Structured-log entries emitted by the library (`slog` calls). -/
inductive LogEntry where
  | authenticated (user : String)
  | enteredGuild (guildID name : String)
  | registerFailed (guildID name err : String)
  | registered (guildID name : String)
  | unregisterFailed (guildID name err : String)
  | unregistered (guildID name : String)
  | recoveredPanic (value : String)
deriving Repr, DecidableEq

/-- Externally visible actions of a run, in program order: handler
installation, transport open/close, and the remote command calls. -/
inductive Action where
  | addReadyHandler
  | addGuildHandler
  | openConn
  | closeConn
  | createCall (userID guildID : String) (cmd : ApplicationCommand)
  | deleteCall (userID guildID cmdID : String)
deriving Repr, DecidableEq

/-- The remote platform's command endpoints, as the library needs them:
`create` is `ApplicationCommandCreate (userID, guildID, cmd)` returning
either the registered command or an error; `delete` is
`ApplicationCommandDelete (userID, guildID, cmdID)`. -/
structure Remote where
  create : String → String → ApplicationCommand → Except String ApplicationCommand
  delete : String → String → String → Except String Unit

/-- Errors of one-time initialization (`Bot.init`): the sentinel
`ErrNoToken`, or a wrapped `discordgo.New` failure. -/
inductive InitError where
  | errNoToken
  | createSession (err : String)
deriving Repr, DecidableEq

/-- The opaque session handle produced by `discordgo.New`. -/
structure Session where
  auth : String
deriving Repr, DecidableEq

/-- Environment of `Bot.init`: the `DISCORD_TOKEN` lookup result
(`none` = variable unset, `some s` = set to `s`, possibly empty) and the
external `discordgo.New` constructor. -/
structure InitEnv where
  lookupToken : Option String
  newSession : String → Except String Session

/-- The memoized state of a `Bot`: whether `sync.Once` has fired, and the
`session`/`err` fields it populated. -/
structure BotState where
  onceDone : Bool
  session : Option Session
  err : Option InitError

/-- A `Bot` before any call: `once` not fired, both fields zero. -/
def freshBot : BotState :=
  { onceDone := false, session := none, err := none }

/-- The body passed to `bot.once.Do`: look up `DISCORD_TOKEN` (absence
yields `ErrNoToken`), otherwise construct the session from
`"Bot " + strings.TrimSpace(token)`, recording either the session or the
wrapped construction error. -/
def initOnceBody (env : InitEnv) : Option Session × Option InitError :=
  match env.lookupToken with
  | none => (none, some .errNoToken)
  | some token =>
    match env.newSession ("Bot " ++ token.trim) with
    | .error e => (none, some (.createSession e))
    | .ok dg => (some dg, none)

/-- `Bot.init`: runs `initOnceBody` at most once per instance
(`sync.Once` semantics). -/
def BotState.init (env : InitEnv) (bot : BotState) : BotState :=
  if bot.onceDone then bot
  else
    { onceDone := true
      session := (initOnceBody env).1
      err := (initOnceBody env).2 }

/-- `Bot.Session`: initializes if necessary and returns the memoized
`(session, err)` pair together with the updated bot state. -/
def BotState.sessionCall (env : InitEnv) (bot : BotState) :
    BotState × (Option Session × Option InitError) :=
  let bot := bot.init env
  (bot, (bot.session, bot.err))

/-- One step of the guild-join reactor's loop body (`for cmd := range
bot.Commands`): issue the remote create call; on failure log and
continue, on success log and append the registration to the ledger.
The accumulator is (ledger, trace, log). -/
def guildCreateStep (remote : Remote) (userID guildID : String)
    (acc : List ApplicationCommand × List Action × List LogEntry)
    (cmd : ApplicationCommand) :
    List ApplicationCommand × List Action × List LogEntry :=
  match remote.create userID guildID cmd with
  | .error e =>
    (acc.1,
     acc.2.1 ++ [Action.createCall userID guildID cmd],
     acc.2.2 ++ [LogEntry.registerFailed guildID cmd.name e])
  | .ok reg =>
    (acc.1 ++ [reg],
     acc.2.1 ++ [Action.createCall userID guildID cmd],
     acc.2.2 ++ [LogEntry.registered guildID cmd.name])

/-- One invocation of the guild-join reactor (the `GuildCreate` handler
installed by `Run`): log the join, then, holding the ledger mutex for the
whole batch, attempt every desired command in order. -/
def guildCreateHandler (remote : Remote) (userID : String)
    (commands : List ApplicationCommand) (g : GuildCreate)
    (acc : List ApplicationCommand × List Action × List LogEntry) :
    List ApplicationCommand × List Action × List LogEntry :=
  commands.foldl (guildCreateStep remote userID g.id)
    (acc.1, acc.2.1, acc.2.2 ++ [LogEntry.enteredGuild g.id g.name])

/-- One step of the teardown drain: issue the delete call scoped to
(bot user id, entry's guild id, entry's remote id); on failure log and
continue, on success log. -/
def teardownStep (remote : Remote) (userID : String)
    (acc : List Action × List LogEntry) (cmd : ApplicationCommand) :
    List Action × List LogEntry :=
  match remote.delete userID cmd.guildID cmd.id with
  | .error e =>
    (acc.1 ++ [Action.deleteCall userID cmd.guildID cmd.id],
     acc.2 ++ [LogEntry.unregisterFailed cmd.guildID cmd.name e])
  | .ok _ =>
    (acc.1 ++ [Action.deleteCall userID cmd.guildID cmd.id],
     acc.2 ++ [LogEntry.unregistered cmd.guildID cmd.name])

/-- The deferred teardown reconciler: under the ledger mutex, drain the
whole ledger, one delete call per entry, in ledger order. -/
def teardown (remote : Remote) (userID : String)
    (registered : List ApplicationCommand) : List Action × List LogEntry :=
  registered.foldl (teardownStep remote userID) ([], [])

/-- Run-loop errors: an initialization error returned directly, or the
wrapped `dg.Open` failure. -/
inductive RunError where
  | initError (e : InitError)
  | openError (e : String)
deriving Repr, DecidableEq

/-- Environment of `Bot.Run`: the init environment, the result of
`dg.Open`, the bot user id held in session state, the serialized order in
which the ledger mutex admits the guild-join events delivered during the
run, and the remote endpoints. -/
structure RunEnv where
  init : InitEnv
  openResult : Except String Unit
  userID : String
  events : List GuildCreate
  remote : Remote

/-- The observable outcome of one `Run` call: the returned value
(`none` = nil), the action trace in program order, the log, and the
ledger contents at the moment teardown starts. -/
structure RunOutcome where
  result : Option RunError
  trace : List Action
  log : List LogEntry
  ledger : List ApplicationCommand

/-- The event loop between `dg.Open` and cancellation: each delivered
guild-join event runs the reactor under the ledger mutex, in admission
order. -/
def eventLoop (remote : Remote) (userID : String)
    (commands : List ApplicationCommand) (events : List GuildCreate) :
    List ApplicationCommand × List Action × List LogEntry :=
  events.foldl (fun acc g => guildCreateHandler remote userID commands g acc)
    ([], [], [])

/-- `Bot.Run`: initialize (returning `bot.err` if initialization
failed); install the readiness handler and the guild-join reactor; open
the connection (returning the wrapped error on failure, with no close);
process events until the context is canceled; then run the deferred
teardown drain followed by the deferred `dg.Close`, and return nil. -/
def BotState.run (env : RunEnv) (commands : List ApplicationCommand)
    (bot : BotState) : BotState × RunOutcome :=
  let bot := bot.init env.init
  match bot.err with
  | some e => (bot, ⟨some (.initError e), [], [], []⟩)
  | none =>
    let pre : List Action := [.addReadyHandler, .addGuildHandler]
    match env.openResult with
    | .error e =>
      (bot, ⟨some (.openError e), pre ++ [.openConn], [], []⟩)
    | .ok _ =>
      let evs := eventLoop env.remote env.userID commands env.events
      let td := teardown env.remote env.userID evs.1
      (bot,
       ⟨none,
        pre ++ [.openConn] ++ evs.2.1 ++ td.1 ++ [.closeConn],
        evs.2.2 ++ td.2,
        evs.1⟩)

/-- The outcome of invoking a handler body: normal return, or a runtime
panic carrying a value. -/
inductive Outcome (α : Type) where
  | normal (a : α)
  | panicked (value : String)
deriving Repr, DecidableEq

/-- The exported `AddHandler` wrapper applied to one event: runs the
callback under a deferred `recover`; a panic is caught and logged and the
wrapped invocation returns normally. -/
def wrapHandler {T : Type} (h : T → Outcome Unit) (ev : T) :
    Outcome Unit × List LogEntry :=
  match h ev with
  | .normal _ => (.normal (), [])
  | .panicked v => (.normal (), [LogEntry.recoveredPanic v])

/-- The guild-join reactor exactly as `Run` installs it: directly via
`dg.AddHandler`, with no recover wrapper, over the bot's `Commands`
field (`none` models a nil `iter.Seq`, which panics when ranged over). -/
def runReactorInvoke (commands : Option (List ApplicationCommand))
    (remote : Remote) (userID : String) (g : GuildCreate)
    (acc : List ApplicationCommand × List Action × List LogEntry) :
    Outcome (List ApplicationCommand × List Action × List LogEntry) :=
  match commands with
  | none => .panicked "runtime error: invalid memory address or nil pointer dereference"
  | some cmds => .normal (guildCreateHandler remote userID cmds g acc)

/-- The registration outcome for one command in one guild: `some reg`
when the remote create call succeeds with `reg`, `none` on failure. -/
def createdOk (remote : Remote) (userID gid : String)
    (cmd : ApplicationCommand) : Option ApplicationCommand :=
  match remote.create userID gid cmd with
  | .ok reg => some reg
  | .error _ => none

/-- The log entry the reactor emits for one command in one guild. -/
def regLog (remote : Remote) (userID gid : String)
    (cmd : ApplicationCommand) : LogEntry :=
  match remote.create userID gid cmd with
  | .error e => LogEntry.registerFailed gid cmd.name e
  | .ok _ => LogEntry.registered gid cmd.name

/-- The log entry teardown emits for one ledger entry. -/
def delLog (remote : Remote) (userID : String)
    (cmd : ApplicationCommand) : LogEntry :=
  match remote.delete userID cmd.guildID cmd.id with
  | .error e => LogEntry.unregisterFailed cmd.guildID cmd.name e
  | .ok _ => LogEntry.unregistered cmd.guildID cmd.name

/-- The delete calls contained in a trace. -/
def deleteCalls (t : List Action) : List Action :=
  t.filter fun a =>
    match a with
    | .deleteCall _ _ _ => true
    | _ => false

/-- The create calls contained in a trace. -/
def createCalls (t : List Action) : List Action :=
  t.filter fun a =>
    match a with
    | .createCall _ _ _ => true
    | _ => false

/-- Sample environment pieces used for concrete evaluations. -/
def sampleInitEnv : InitEnv :=
  { lookupToken := some "tok"
    newSession := fun s => .ok ⟨s⟩ }

/-- A remote platform on which every call succeeds; create returns the
command stamped with a fresh id and its guild. -/
def sampleRemote : Remote :=
  { create := fun _ gid cmd => .ok { id := cmd.name, name := cmd.name, guildID := gid }
    delete := fun _ _ _ => .ok () }

/-- A sample run environment: one guild-join event, happy-path remote. -/
def sampleEnv : RunEnv :=
  { init := sampleInitEnv
    openResult := .ok ()
    userID := "u1"
    events := [⟨"G1", "Guild One"⟩]
    remote := sampleRemote }

/-- A sample desired-command list. -/
def sampleCommands : List ApplicationCommand :=
  [{ id := "", name := "ping", guildID := "" }]

/-!  Characterization lemmas for the folds of the model.  -/

/-- One teardown step always issues exactly the delete call for its
entry and always emits its log entry, whatever the remote answers. -/
theorem teardownStep_eq (remote : Remote) (userID : String)
    (acc : List Action × List LogEntry) (cmd : ApplicationCommand) :
    teardownStep remote userID acc cmd =
      (acc.1 ++ [Action.deleteCall userID cmd.guildID cmd.id],
       acc.2 ++ [delLog remote userID cmd]) := by
  unfold teardownStep delLog
  cases remote.delete userID cmd.guildID cmd.id <;> rfl

/-- The teardown fold appends one delete call and one log entry per
ledger entry, in ledger order. -/
theorem teardown_foldl_eq (remote : Remote) (userID : String) :
    ∀ (l : List ApplicationCommand) (acc : List Action × List LogEntry),
      l.foldl (teardownStep remote userID) acc =
        (acc.1 ++ l.map (fun c => Action.deleteCall userID c.guildID c.id),
         acc.2 ++ l.map (delLog remote userID)) := by
  intro l
  induction l with
  | nil => intro acc; simp
  | cons c cs ih =>
    intro acc
    simp only [List.foldl_cons, List.map_cons]
    rw [ih, teardownStep_eq]
    simp

/-- Closed form of the teardown reconciler. -/
theorem teardown_eq (remote : Remote) (userID : String)
    (l : List ApplicationCommand) :
    teardown remote userID l =
      (l.map (fun c => Action.deleteCall userID c.guildID c.id),
       l.map (delLog remote userID)) := by
  unfold teardown
  rw [teardown_foldl_eq]
  simp

/-- Closed form of the reactor's per-guild batch: the ledger gains
exactly the successful registrations, the trace gains one create call
per desired command, and the log gains one entry per desired command. -/
theorem guildBatch_eq (remote : Remote) (userID gid : String) :
    ∀ (cmds : List ApplicationCommand)
      (acc : List ApplicationCommand × List Action × List LogEntry),
      cmds.foldl (guildCreateStep remote userID gid) acc =
        (acc.1 ++ cmds.filterMap (createdOk remote userID gid),
         acc.2.1 ++ cmds.map (fun c => Action.createCall userID gid c),
         acc.2.2 ++ cmds.map (regLog remote userID gid)) := by
  intro cmds
  induction cmds with
  | nil => intro acc; simp
  | cons c cs ih =>
    intro acc
    simp only [List.foldl_cons, List.map_cons]
    rw [ih]
    unfold guildCreateStep createdOk regLog
    cases h : remote.create userID gid c <;> simp [h]

/-- Closed form of one guild-join reactor invocation. -/
theorem guildCreateHandler_eq (remote : Remote) (userID : String)
    (commands : List ApplicationCommand) (g : GuildCreate)
    (acc : List ApplicationCommand × List Action × List LogEntry) :
    guildCreateHandler remote userID commands g acc =
      (acc.1 ++ commands.filterMap (createdOk remote userID g.id),
       acc.2.1 ++ commands.map (fun c => Action.createCall userID g.id c),
       acc.2.2 ++ (LogEntry.enteredGuild g.id g.name ::
         commands.map (regLog remote userID g.id))) := by
  unfold guildCreateHandler
  rw [guildBatch_eq]
  simp

/-- Closed form of the whole event loop, with an arbitrary starting
accumulator. -/
theorem eventLoop_foldl_eq (remote : Remote) (userID : String)
    (commands : List ApplicationCommand) :
    ∀ (events : List GuildCreate)
      (acc : List ApplicationCommand × List Action × List LogEntry),
      events.foldl (fun a g => guildCreateHandler remote userID commands g a) acc =
        (acc.1 ++ events.flatMap (fun g => commands.filterMap (createdOk remote userID g.id)),
         acc.2.1 ++ events.flatMap (fun g => commands.map (fun c => Action.createCall userID g.id c)),
         acc.2.2 ++ events.flatMap (fun g =>
           LogEntry.enteredGuild g.id g.name :: commands.map (regLog remote userID g.id))) := by
  intro events
  induction events with
  | nil => intro acc; simp
  | cons g gs ih =>
    intro acc
    simp only [List.foldl_cons, List.flatMap_cons]
    rw [ih, guildCreateHandler_eq]
    simp

/-- Closed form of the event loop started from the empty state. -/
theorem eventLoop_eq (remote : Remote) (userID : String)
    (commands : List ApplicationCommand) (events : List GuildCreate) :
    eventLoop remote userID commands events =
      (events.flatMap (fun g => commands.filterMap (createdOk remote userID g.id)),
       events.flatMap (fun g => commands.map (fun c => Action.createCall userID g.id c)),
       events.flatMap (fun g =>
         LogEntry.enteredGuild g.id g.name :: commands.map (regLog remote userID g.id))) := by
  unfold eventLoop
  rw [eventLoop_foldl_eq]
  simp

/-- Filtering for deletes distributes over trace concatenation. -/
theorem deleteCalls_append (s t : List Action) :
    deleteCalls (s ++ t) = deleteCalls s ++ deleteCalls t :=
  List.filter_append s t

/-- The event loop's trace contains no delete call. -/
theorem deleteCalls_eventLoop (remote : Remote) (userID : String)
    (commands : List ApplicationCommand) (events : List GuildCreate) :
    deleteCalls (eventLoop remote userID commands events).2.1 = [] := by
  rw [eventLoop_eq]
  unfold deleteCalls
  rw [List.filter_eq_nil_iff]
  intro a ha
  rw [List.mem_flatMap] at ha
  obtain ⟨g, _, ha⟩ := ha
  rw [List.mem_map] at ha
  obtain ⟨c, _, rfl⟩ := ha
  simp

/-- The teardown trace consists exclusively of delete calls. -/
theorem deleteCalls_teardown (remote : Remote) (userID : String)
    (l : List ApplicationCommand) :
    deleteCalls (teardown remote userID l).1 = (teardown remote userID l).1 := by
  rw [teardown_eq]
  unfold deleteCalls
  rw [List.filter_eq_self]
  intro a ha
  rw [List.mem_map] at ha
  obtain ⟨c, _, rfl⟩ := ha
  simp

/-!  Claim theorems.  -/

/-- An environment in which `DISCORD_TOKEN` is set to the empty string
and session construction always succeeds. -/
def envEmptyToken : InitEnv :=
  { lookupToken := some ""
    newSession := fun s => .ok ⟨s⟩ }

/-- C6 counterexample: with `DISCORD_TOKEN` present but empty, `init`
does not fail with `ErrNoToken` — `os.LookupEnv` reports the variable as
found, so initialization proceeds to session construction.  This refutes
the claim that an empty token yields `ErrNoToken`. -/
theorem C6_counterexample :
    (freshBot.init envEmptyToken).err ≠ some InitError.errNoToken ∧
    (freshBot.init envEmptyToken).session.isSome = true := by
  constructor
  · unfold freshBot BotState.init initOnceBody envEmptyToken
    simp
  · unfold freshBot BotState.init initOnceBody envEmptyToken
    simp

/-- C6 (amended): on a fresh bot, initialization fails with `ErrNoToken`
exactly when the `DISCORD_TOKEN` environment variable is unset; a
set-but-empty value does not produce `ErrNoToken` (it is passed, trimmed,
to session construction). -/
theorem C6_errNoToken_iff_unset (env : InitEnv) :
    (freshBot.init env).err = some InitError.errNoToken ↔
      env.lookupToken = none := by
  unfold freshBot BotState.init initOnceBody
  cases h : env.lookupToken with
  | none => simp [h]
  | some token =>
    cases hn : env.newSession ("Bot " ++ token.trim) <;> simp [h, hn]

/-- C7: session initialization is memoized.  After a first
`Session()` call, any later `Session()` call — even under a changed
environment, showing lookup and construction are not re-executed —
returns exactly the same (session, err) pair and leaves the bot state
unchanged. -/
theorem C7_session_memoized (env env' : InitEnv) (bot : BotState) :
    (((bot.sessionCall env).1).sessionCall env').2 = (bot.sessionCall env).2 ∧
    (((bot.sessionCall env).1).sessionCall env').1 = (bot.sessionCall env).1 := by
  unfold BotState.sessionCall BotState.init
  cases h : bot.onceDone <;> simp [h]

/-- C8: the exported `AddHandler` wrapper contains handler panics: every
wrapped invocation returns normally, and when the underlying callback
panics with value `v` the wrapper logs the recovered panic. -/
theorem C8_panic_containment {T : Type} (h : T → Outcome Unit) (ev : T) :
    (wrapHandler h ev).1 = Outcome.normal () ∧
    ∀ v, h ev = Outcome.panicked v →
      (wrapHandler h ev).2 = [LogEntry.recoveredPanic v] := by
  unfold wrapHandler
  cases hv : h ev with
  | normal a => exact ⟨rfl, fun v hp => by cases hp⟩
  | panicked v =>
    refine ⟨rfl, fun w hp => ?_⟩
    cases hp
    rfl

/-- A handler that always panics, used to witness panic containment. -/
def panickyHandler : Unit → Outcome Unit := fun _ => .panicked "boom"

/-- C8 witness: a concrete panicking handler is contained and its panic
value is logged. -/
theorem C8_witness :
    (wrapHandler panickyHandler ()).1 = Outcome.normal () ∧
    (wrapHandler panickyHandler ()).2 = [LogEntry.recoveredPanic "boom"] :=
  ⟨(C8_panic_containment panickyHandler ()).1,
   (C8_panic_containment panickyHandler ()).2 "boom" rfl⟩

/-- C10: the handlers `Run` installs itself are not panic-wrapped.  The
guild-join reactor as installed by `Run` panics (and the panic is not
recovered by this library) when `Bot.Commands` is a nil sequence, while
any callback registered through the exported `AddHandler` helper always
returns normally from its wrapper. -/
theorem C10_run_handlers_unwrapped (remote : Remote) (userID : String)
    (g : GuildCreate)
    (acc : List ApplicationCommand × List Action × List LogEntry) :
    (∃ v, runReactorInvoke none remote userID g acc = Outcome.panicked v) ∧
    (∀ {T : Type} (h : T → Outcome Unit) (ev : T),
      (wrapHandler h ev).1 = Outcome.normal ()) := by
  constructor
  · exact ⟨_, rfl⟩
  · intro T h ev
    unfold wrapHandler
    cases h ev <;> rfl

/-- A successful `createdOk` result is exactly a successful remote
create call. -/
theorem createdOk_eq_some (remote : Remote) (userID gid : String)
    (cmd reg : ApplicationCommand) :
    createdOk remote userID gid cmd = some reg ↔
      remote.create userID gid cmd = Except.ok reg := by
  unfold createdOk
  cases h : remote.create userID gid cmd <;> simp

/-- Closed form of a successful run: init succeeded and open succeeded,
so the outcome is nil, the trace is handler installs, open, the event
loop's create calls, the teardown drain, then close; the log is the
event loop's log followed by teardown's; the ledger is the event loop's
ledger. -/
theorem run_eq_of_ok (env : RunEnv) (commands : List ApplicationCommand)
    (bot : BotState) (h1 : (bot.init env.init).err = none)
    (h2 : env.openResult = Except.ok ()) :
    bot.run env commands =
      (bot.init env.init,
       ⟨none,
        [Action.addReadyHandler, Action.addGuildHandler] ++ [Action.openConn] ++
          (eventLoop env.remote env.userID commands env.events).2.1 ++
          (teardown env.remote env.userID
            (eventLoop env.remote env.userID commands env.events).1).1 ++
          [Action.closeConn],
        (eventLoop env.remote env.userID commands env.events).2.2 ++
          (teardown env.remote env.userID
            (eventLoop env.remote env.userID commands env.events).1).2,
        (eventLoop env.remote env.userID commands env.events).1⟩) := by
  unfold BotState.run
  simp only [h1, h2]

/-- C1: whenever `Run` reaches the open-connection state, its teardown
drain issues exactly one delete call per ledger entry, scoped to the bot
user id, the entry's guild id and the entry's remote id, in ledger
order; every entry also gets its teardown log entry (failure or
success), so a failed delete is logged and the drain continues; and the
run's returned value is nil regardless of any delete failures. -/
theorem C1_teardown_exactly_once (env : RunEnv)
    (commands : List ApplicationCommand) (bot : BotState)
    (h1 : (bot.init env.init).err = none)
    (h2 : env.openResult = Except.ok ()) :
    deleteCalls (bot.run env commands).2.trace =
      (bot.run env commands).2.ledger.map
        (fun c => Action.deleteCall env.userID c.guildID c.id) ∧
    (bot.run env commands).2.log =
      (eventLoop env.remote env.userID commands env.events).2.2 ++
        (bot.run env commands).2.ledger.map (delLog env.remote env.userID) ∧
    (bot.run env commands).2.result = none := by
  rw [run_eq_of_ok env commands bot h1 h2]
  refine ⟨?_, ?_, rfl⟩
  · simp only [deleteCalls_append, deleteCalls_eventLoop, deleteCalls_teardown,
      teardown_eq]
    simp [deleteCalls]
  · rw [teardown_eq]

/-- C1 witness: the concrete sample run satisfies both hypotheses and
the teardown guarantee. -/
theorem C1_witness :
    ((freshBot.init sampleEnv.init).err = none ∧
      sampleEnv.openResult = Except.ok ()) ∧
    (deleteCalls (freshBot.run sampleEnv sampleCommands).2.trace =
      (freshBot.run sampleEnv sampleCommands).2.ledger.map
        (fun c => Action.deleteCall sampleEnv.userID c.guildID c.id) ∧
    (freshBot.run sampleEnv sampleCommands).2.log =
      (eventLoop sampleEnv.remote sampleEnv.userID sampleCommands sampleEnv.events).2.2 ++
        (freshBot.run sampleEnv sampleCommands).2.ledger.map
          (delLog sampleEnv.remote sampleEnv.userID) ∧
    (freshBot.run sampleEnv sampleCommands).2.result = none) :=
  ⟨⟨rfl, rfl⟩, C1_teardown_exactly_once sampleEnv sampleCommands freshBot rfl rfl⟩

/-- C2: ledger invariant — every element of the registered-commands
ledger built by the event loop is the result of a remote create call
that returned success, and each reactor invocation only appends to the
ledger (appended elements themselves being successful registrations);
nothing is removed before the teardown drain. -/
theorem C2_ledger_invariant (remote : Remote) (userID : String)
    (commands : List ApplicationCommand) (events : List GuildCreate) :
    (∀ reg ∈ (eventLoop remote userID commands events).1,
      ∃ g ∈ events, ∃ cmd ∈ commands,
        remote.create userID g.id cmd = Except.ok reg) ∧
    (∀ (g : GuildCreate)
      (acc : List ApplicationCommand × List Action × List LogEntry),
      ∃ s, (guildCreateHandler remote userID commands g acc).1 = acc.1 ++ s ∧
        ∀ reg ∈ s, ∃ cmd ∈ commands,
          remote.create userID g.id cmd = Except.ok reg) := by
  constructor
  · rw [eventLoop_eq]
    intro reg hreg
    rw [List.mem_flatMap] at hreg
    obtain ⟨g, hg, hreg⟩ := hreg
    rw [List.mem_filterMap] at hreg
    obtain ⟨cmd, hcmd, hok⟩ := hreg
    exact ⟨g, hg, cmd, hcmd, (createdOk_eq_some remote userID g.id cmd reg).mp hok⟩
  · intro g acc
    rw [guildCreateHandler_eq]
    refine ⟨commands.filterMap (createdOk remote userID g.id), rfl, ?_⟩
    intro reg hreg
    rw [List.mem_filterMap] at hreg
    obtain ⟨cmd, hcmd, hok⟩ := hreg
    exact ⟨cmd, hcmd, (createdOk_eq_some remote userID g.id cmd reg).mp hok⟩

/-- C3: partial-failure isolation during registration — whatever the
remote answers (including any pattern of failures), the event loop
issues exactly one create call per desired command per guild-join
event, in order, and logs one registration outcome (failure or success)
per command after each guild-entry log; no failure aborts the batch or
the guild, and no command is attempted twice. -/
theorem C3_registration_isolation (remote : Remote) (userID : String)
    (commands : List ApplicationCommand) (events : List GuildCreate) :
    (eventLoop remote userID commands events).2.1 =
      events.flatMap (fun g =>
        commands.map (fun c => Action.createCall userID g.id c)) ∧
    (eventLoop remote userID commands events).2.2 =
      events.flatMap (fun g =>
        LogEntry.enteredGuild g.id g.name ::
          commands.map (regLog remote userID g.id)) := by
  rw [eventLoop_eq]
  exact ⟨rfl, rfl⟩

/-- C4: shutdown ordering — on every run that reaches the open state,
the trace is the two handler installs, the open, a middle segment with
no delete call, then the whole teardown drain over the final ledger,
and only then the connection close. -/
theorem C4_shutdown_ordering (env : RunEnv)
    (commands : List ApplicationCommand) (bot : BotState)
    (h1 : (bot.init env.init).err = none)
    (h2 : env.openResult = Except.ok ()) :
    ∃ mid, (bot.run env commands).2.trace =
        [Action.addReadyHandler, Action.addGuildHandler, Action.openConn] ++
          mid ++
          (teardown env.remote env.userID (bot.run env commands).2.ledger).1 ++
          [Action.closeConn] ∧
      deleteCalls mid = [] := by
  rw [run_eq_of_ok env commands bot h1 h2]
  exact ⟨(eventLoop env.remote env.userID commands env.events).2.1, rfl,
    deleteCalls_eventLoop env.remote env.userID commands env.events⟩

/-- C4 witness: the concrete sample run satisfies both hypotheses and
the ordering guarantee. -/
theorem C4_witness :
    ((freshBot.init sampleEnv.init).err = none ∧
      sampleEnv.openResult = Except.ok ()) ∧
    (∃ mid, (freshBot.run sampleEnv sampleCommands).2.trace =
        [Action.addReadyHandler, Action.addGuildHandler, Action.openConn] ++
          mid ++
          (teardown sampleEnv.remote sampleEnv.userID
            (freshBot.run sampleEnv sampleCommands).2.ledger).1 ++
          [Action.closeConn] ∧
      deleteCalls mid = []) :=
  ⟨⟨rfl, rfl⟩, C4_shutdown_ordering sampleEnv sampleCommands freshBot rfl rfl⟩

/-- C5: result contract — the run returns nil exactly when
initialization and the connection open both succeeded; any non-nil
result is either the initialization error or the wrapped open error;
and the result is unchanged by the delivered events, the remote's
answers, and the desired commands (so no steady-state or teardown
failure is ever reflected in it). -/
theorem C5_result_contract (env : RunEnv)
    (commands commands2 : List ApplicationCommand) (bot : BotState)
    (events2 : List GuildCreate) (remote2 : Remote) :
    ((bot.run env commands).2.result = none ↔
      (bot.init env.init).err = none ∧ env.openResult = Except.ok ()) ∧
    ((bot.run env commands).2.result = none ∨
      (∃ ie, (bot.run env commands).2.result = some (RunError.initError ie) ∧
        (bot.init env.init).err = some ie) ∨
      (∃ s, (bot.run env commands).2.result = some (RunError.openError s) ∧
        env.openResult = Except.error s)) ∧
    (bot.run { env with events := events2, remote := remote2 } commands2).2.result =
      (bot.run env commands).2.result := by
  unfold BotState.run
  cases h : (bot.init env.init).err with
  | some e => simp [h]
  | none =>
    cases ho : env.openResult with
    | error e => simp [h, ho]
    | ok u => simp [h, ho]

/-- C9 counterexample: in a concrete successful run, both handler
installations appear in the trace strictly before the connection open,
refuting the claim that the guild-join reactor and readiness handler
are installed only after the transport connection has been opened. -/
theorem C9_counterexample :
    (freshBot.run sampleEnv sampleCommands).2.trace =
      [Action.addReadyHandler, Action.addGuildHandler, Action.openConn,
       Action.createCall "u1" "G1" { id := "", name := "ping", guildID := "" },
       Action.deleteCall "u1" "G1" "ping",
       Action.closeConn] := rfl

/-- C9 (amended): whenever initialization succeeds, `Run` installs the
readiness-logging handler and then the guild-join reactor before it
opens the transport connection (and hence before it blocks on the
cancellation signal). -/
theorem C9_handlers_installed_before_open (env : RunEnv)
    (commands : List ApplicationCommand) (bot : BotState)
    (h1 : (bot.init env.init).err = none) :
    ∃ rest, (bot.run env commands).2.trace =
      Action.addReadyHandler :: Action.addGuildHandler ::
        Action.openConn :: rest := by
  unfold BotState.run
  simp only [h1]
  cases ho : env.openResult with
  | error e => exact ⟨[], rfl⟩
  | ok u => exact ⟨_, rfl⟩

/-- C9 witness: the concrete sample run satisfies the hypothesis and
exhibits the install-before-open trace shape. -/
theorem C9_witness :
    (freshBot.init sampleEnv.init).err = none ∧
    (∃ rest, (freshBot.run sampleEnv sampleCommands).2.trace =
      Action.addReadyHandler :: Action.addGuildHandler ::
        Action.openConn :: rest) :=
  ⟨rfl, C9_handlers_installed_before_open sampleEnv sampleCommands freshBot rfl⟩

end DGUtil
